import Mathlib

/-!
Shallow embedding of the prediction-serving request lifecycle of the
California Housing MLOps API (`src/api/main.py`): input validation
(`HousingFeatures`), model/scaler resolution (`MLModelService.load_model`),
feature engineering (`MLModelService.preprocess_input`), prediction with
logging and metrics (`MLModelService.predict`), and the HTTP endpoints
`/predict` (`predict_price`), `/health` (`health_check`) and `/model/info`
(`get_model_info`).

Numbers are modelled as rationals.  External effects (the MLflow registry,
the local filesystem, joblib loads, the SQLite prediction log, the
Prometheus counter) are modelled as explicit environment fields and
explicit state passing; a Python exception in a step is modelled by that
step returning `none` / `Except.error`.
-/

namespace CaliforniaHousing

/-- Round-half-to-even on rationals, the rounding mode of the Python
built-in `round` (idealised over exact rationals). -/
def roundHalfEven (q : ℚ) : ℤ :=
  let fl : ℤ := ⌊q⌋
  let fr : ℚ := q - fl
  if fr < 1 / 2 then fl
  else if 1 / 2 < fr then fl + 1
  else if fl % 2 = 0 then fl else fl + 1

/-- Model of `round(x, 2)` in Python: two decimal places, half to even. -/
def round2 (q : ℚ) : ℚ := (roundHalfEven (100 * q) : ℚ) / 100

/-- The 8 raw input fields of the request body
(`HousingFeatures(BaseModel)` in `src/api/main.py`). -/
structure HousingFeatures where
  MedInc : ℚ
  HouseAge : ℚ
  AveRooms : ℚ
  AveBedrms : ℚ
  Population : ℚ
  AveOccup : ℚ
  Latitude : ℚ
  Longitude : ℚ
deriving DecidableEq, Repr

/-- One violated validation constraint, as reported in a pydantic 422
response: one range constraint per field (`ge`/`le` pairs of the `Field`
declarations), plus the custom `validate_ave_occup` rule. -/
inductive Violation where
  | medIncRange
  | houseAgeRange
  | aveRoomsRange
  | aveBedrmsRange
  | populationRange
  | aveOccupRange
  | latitudeRange
  | longitudeRange
  | aveOccupPositive
deriving DecidableEq, Repr

/-- Field rule `MedInc: ge=0, le=15`. -/
def medIncErrs (f : HousingFeatures) : List Violation :=
  if f.MedInc < 0 ∨ 15 < f.MedInc then [.medIncRange] else []

/-- Field rule `HouseAge: ge=0, le=100`. -/
def houseAgeErrs (f : HousingFeatures) : List Violation :=
  if f.HouseAge < 0 ∨ 100 < f.HouseAge then [.houseAgeRange] else []

/-- Field rule `AveRooms: ge=1, le=20`. -/
def aveRoomsErrs (f : HousingFeatures) : List Violation :=
  if f.AveRooms < 1 ∨ 20 < f.AveRooms then [.aveRoomsRange] else []

/-- Field rule `AveBedrms: ge=0, le=5`. -/
def aveBedrmsErrs (f : HousingFeatures) : List Violation :=
  if f.AveBedrms < 0 ∨ 5 < f.AveBedrms then [.aveBedrmsRange] else []

/-- Field rule `Population: ge=0, le=50000`. -/
def populationErrs (f : HousingFeatures) : List Violation :=
  if f.Population < 0 ∨ 50000 < f.Population then [.populationRange] else []

/-- Field rule `AveOccup: ge=0.5, le=20`, then the custom `validate_ave_occup`
validator (`if v <= 0: raise ValueError`), which pydantic v1 only runs
once the range constraints of the field have passed. -/
def aveOccupErrs (f : HousingFeatures) : List Violation :=
  if f.AveOccup < 1 / 2 ∨ 20 < f.AveOccup then [.aveOccupRange]
  else if f.AveOccup ≤ 0 then [.aveOccupPositive]
  else []

/-- Field rule `Latitude: ge=32, le=42`. -/
def latitudeErrs (f : HousingFeatures) : List Violation :=
  if f.Latitude < 32 ∨ 42 < f.Latitude then [.latitudeRange] else []

/-- Field rule `Longitude: ge=-125, le=-114`. -/
def longitudeErrs (f : HousingFeatures) : List Violation :=
  if f.Longitude < -125 ∨ -114 < f.Longitude then [.longitudeRange] else []

/-- Pydantic request-body validation: every field is checked
independently (declaration order) and all errors are collected; the
request is accepted exactly when the list is empty. -/
def validate (f : HousingFeatures) : List Violation :=
  medIncErrs f ++ houseAgeErrs f ++ aveRoomsErrs f ++ aveBedrmsErrs f ++
    populationErrs f ++ aveOccupErrs f ++ latitudeErrs f ++ longitudeErrs f

/-! ## Model store (`MLModelService.load_model`) -/

/-- An opaque trained estimator.  `predictFn` is `model.predict(X)[0]`
on the (possibly scaled) 11-entry feature row; `none` models the
underlying numeric computation raising. -/
structure Model where
  predictFn : List (Option ℚ) → Option ℚ

/-- An opaque fitted scaler; `transform` is `scaler.transform(df)`. -/
structure Scaler where
  transform : List (Option ℚ) → List (Option ℚ)

/-- The three local artifact names, in the fixed dictionary order of
`model_files` in `load_model`. -/
inductive ModelName where
  | gradient_boosting
  | random_forest
  | linear_regression
deriving DecidableEq, Repr

/-- The iteration order of the `model_files` dictionary:
gradient boosting, then random forest, then linear regression. -/
def modelFileOrder : List ModelName :=
  [.gradient_boosting, .random_forest, .linear_regression]

/-- The startup environment seen by `load_model`: the MLflow registry
call (`none` = it raises), local artifact existence (`os.path.exists`),
local artifact loads (`joblib.load`; `none` = it raises), and the same
for `models/scaler.joblib`. -/
structure LoadEnv where
  mlflowLoad : Option Model
  localFileExists : ModelName → Bool
  localLoad : ModelName → Option Model
  scalerFileExists : Bool
  scalerLoad : Option Scaler

/-- The first local model file that exists, scanning `modelFileOrder`
(the `for model_name, path in model_files.items()` loop with `break`). -/
def firstExistingModel (env : LoadEnv) : Option ModelName :=
  modelFileOrder.find? env.localFileExists

/-- Model of `MLModelService.load_model`.  The inner `try` resolves the model
from MLflow; its bare `except` runs the local-file fallback loop, whose
own `joblib.load` failures propagate to the outer `try`.  The scaler is
then loaded if its file exists.  Any exception reaching the outer
`except` is re-raised as `RuntimeError` (modelled by `Except.error`),
which aborts service construction; note that finding no model at all
raises nothing, leaving `self.model = None` in a successfully
constructed service. -/
def load_model (env : LoadEnv) : Except String (Option Model × Option Scaler) := do
  let model : Option Model ←
    match env.mlflowLoad with
    | some m => pure (some m)
    | none =>
      match firstExistingModel env with
      | none => pure none
      | some name =>
        match env.localLoad name with
        | some m => pure (some m)
        | none => Except.error "Could not load model"
  let scaler : Option Scaler ←
    if env.scalerFileExists then
      match env.scalerLoad with
      | some s => pure (some s)
      | none => Except.error "Could not load model"
    else
      pure none
  return (model, scaler)

/-- The scaler component held by the service when `load_model` did not
raise: the content of `models/scaler.joblib` if that file exists,
otherwise nothing. -/
def loadedScaler (env : LoadEnv) : Option Scaler :=
  if env.scalerFileExists then env.scalerLoad else none

/-- A concrete opaque estimator for instantiating the environment:
always predicts `q`. -/
def constModel (q : ℚ) : Model := ⟨fun _ => some q⟩

/-! ## Prediction service -/

/-- The immutable per-process service configuration after startup:
the resolved artifacts, the `model_info` version string, the response
clock, and whether the SQLite insert in `log_prediction` succeeds
(`logWritable = false` models an unwritable log store) and whether the
Prometheus counter exists (`METRICS_ENABLED`). -/
structure Service where
  model : Option Model
  scaler : Option Scaler
  modelVersion : String
  now : String
  logWritable : Bool
  metricsEnabled : Bool

/-- One row of the `predictions` table, as written by `log_prediction`:
the raw input features and the prediction value passed in (the model
output before any response rounding). -/
structure LogRow where
  timestamp : String
  features : HousingFeatures
  prediction : ℚ
  modelVersion : String
deriving DecidableEq, Repr

/-- The mutable shared state: the prediction log and the
`predictions_total` counter. -/
structure ServiceState where
  log : List LogRow
  counter : ℕ
deriving DecidableEq, Repr

/-- The 8 raw fields in column order, as `pd.DataFrame([input_dict])`
lays them out. -/
def rawVec (f : HousingFeatures) : List ℚ :=
  [f.MedInc, f.HouseAge, f.AveRooms, f.AveBedrms, f.Population,
    f.AveOccup, f.Latitude, f.Longitude]

/-- Float division producing `inf`/`nan` on a zero denominator,
modelled as `none`. -/
def ratioDiv (a b : ℚ) : Option ℚ := if b = 0 then none else some (a / b)

/-- The single-row DataFrame after the three engineered-ratio columns
are added and the `replace(inf, nan)` / `fillna(df.mean())` cleanup
runs.  For the batch of size 1 used on every serving path the cleanup
is the identity: a defined entry is its own column mean, and an
column mean of an undefined entry is again undefined. -/
def engineeredRow (f : HousingFeatures) : List (Option ℚ) :=
  (rawVec f).map some ++
    [ratioDiv f.AveRooms f.AveOccup,
     ratioDiv f.AveBedrms f.AveRooms,
     ratioDiv f.Population f.AveOccup]

/-- Model of `MLModelService.preprocess_input`: engineered row, then the scaler
if one was loaded (`self.scaler`), else the raw values pass through. -/
def preprocess_input (scaler : Option Scaler) (f : HousingFeatures) : List (Option ℚ) :=
  match scaler with
  | some sc => sc.transform (engineeredRow f)
  | none => engineeredRow f

/-- Request-scoped error outcomes of `MLModelService.predict`:
the `RuntimeError("Model not loaded")` guard and the catch-all
`HTTPException(500, "Prediction failed: ...")`. -/
inductive PredictError where
  | modelUnavailable
  | inferenceFailure
deriving DecidableEq, Repr

/-- Model of `MLModelService.log_prediction`: best-effort append of one row; any
exception is caught inside the method and only written to the
operational log, so a failed append leaves the state unchanged and
raises nothing. -/
def log_prediction (s : Service) (st : ServiceState) (f : HousingFeatures)
    (prediction : ℚ) : ServiceState :=
  if s.logWritable then
    { st with log := st.log ++ [⟨s.now, f, prediction, s.modelVersion⟩] }
  else
    st

/-- Model of `MLModelService.predict`: model-presence guard, preprocessing,
inference, best-effort logging, counter increment; returns the raw
prediction together with the state after the side effects. -/
def servicePredict (s : Service) (st : ServiceState) (f : HousingFeatures) :
    Except PredictError ℚ × ServiceState :=
  match s.model with
  | none => (.error .modelUnavailable, st)
  | some m =>
    match m.predictFn (preprocess_input s.scaler f) with
    | none => (.error .inferenceFailure, st)
    | some prediction =>
      let st := log_prediction s st f prediction
      let st := if s.metricsEnabled then { st with counter := st.counter + 1 } else st
      (.ok prediction, st)

/-! ## HTTP endpoints -/

/-- The body of a 200 response from `POST /predict`
(`PredictionResponse`): `prediction` is rounded to two decimals, the
confidence interval is computed from the raw local `prediction`
variable of `predict_price`. -/
structure PredictionResponse where
  prediction : ℚ
  model_version : String
  timestamp : String
  ci_lower : ℚ
  ci_upper : ℚ
deriving DecidableEq, Repr

/-- The HTTP outcome of `POST /predict`: 200 with a body, 422 from
pydantic request validation (carrying the violation list), or 500 from
the catch-all `except` of the endpoint. -/
inductive PredictOutcome where
  | success (r : PredictionResponse)
  | invalidInput (violations : List Violation)
  | serverError (e : PredictError)
deriving DecidableEq, Repr

/-- Endpoint `POST /predict` (`predict_price`): FastAPI rejects the request with
422 before the handler runs when pydantic validation fails; otherwise
the handler calls `ml_service.predict` and assembles the response, with
`confidence_interval` derived from the raw prediction and the
`prediction` field rounded to two decimals. -/
def predict_price (s : Service) (st : ServiceState) (f : HousingFeatures) :
    PredictOutcome × ServiceState :=
  if validate f = [] then
    match servicePredict s st f with
    | (.ok prediction, st) =>
      (.success
        { prediction := round2 prediction
          model_version := s.modelVersion
          timestamp := s.now
          ci_lower := round2 (prediction * 0.85)
          ci_upper := round2 (prediction * 1.15) }, st)
    | (.error e, st) => (.serverError e, st)
  else
    (.invalidInput (validate f), st)

/-- The fixed synthetic input built by `health_check`
(`test_features = HousingFeatures(MedInc=5.0, ...)`). -/
def canonicalInput : HousingFeatures :=
  { MedInc := 5, HouseAge := 10, AveRooms := 6, AveBedrms := 1,
    Population := 1000, AveOccup := 3, Latitude := 35, Longitude := -120 }

/-- The JSON body returned by `GET /health`; a field that the branch
taken does not emit is `none`. -/
structure HealthResponse where
  status : String
  model_loaded : Option Bool
  scaler_loaded : Option Bool
  error : Option PredictError
  timestamp : String
deriving DecidableEq, Repr

/-- Endpoint `GET /health` (`health_check`): one synthetic prediction with the
canonical input through `ml_service.predict`; on success the healthy
body with `model_loaded`/`scaler_loaded`, on any exception the
unhealthy body with only `status`, `error` and `timestamp`. -/
def health_check (s : Service) (st : ServiceState) :
    HealthResponse × ServiceState :=
  match servicePredict s st canonicalInput with
  | (.ok _, st) =>
    ({ status := "healthy"
       model_loaded := some s.model.isSome
       scaler_loaded := some s.scaler.isSome
       error := none
       timestamp := s.now }, st)
  | (.error e, st) =>
    ({ status := "unhealthy"
       model_loaded := none
       scaler_loaded := none
       error := some e
       timestamp := s.now }, st)

/-- The `feature_names` list set in `load_model`. -/
def feature_names : List String :=
  ["MedInc", "HouseAge", "AveRooms", "AveBedrms", "Population",
   "AveOccup", "Latitude", "Longitude", "rooms_per_household",
   "bedrooms_per_room", "population_per_household"]

/-- The body of `GET /model/info` (`ModelInfo`), with
`performance_metrics` flattened into its two keys. -/
structure ModelInfoResponse where
  model_name : String
  model_version : String
  features : List String
  rmse : ℚ
  r2_score : ℚ
  last_updated : String
deriving DecidableEq, Repr

/-- Endpoint `GET /model/info` (`get_model_info`): metadata from the
service, with `performance_metrics` hardcoded to rmse 0.52 and
r2_score 0.82, the constant marked Example metrics in the source. -/
def get_model_info (s : Service) : ModelInfoResponse :=
  { model_name := "California Housing Price Predictor"
    model_version := s.modelVersion
    features := feature_names
    rmse := 0.52
    r2_score := 0.82
    last_updated := s.now }

/-! ## Validation lemmas -/

theorem rangeErrs_eq_nil (x lo hi : ℚ) (v : Violation) :
    ((if x < lo ∨ hi < x then [v] else []) = []) ↔ (lo ≤ x ∧ x ≤ hi) := by
  split_ifs with h
  · simp only [List.cons_ne_nil, false_iff, not_and_or, not_le]
    exact h
  · push_neg at h
    simpa using h

theorem mem_rangeErrs (x lo hi : ℚ) (v w : Violation) :
    (w ∈ if x < lo ∨ hi < x then [v] else []) ↔ ((x < lo ∨ hi < x) ∧ w = v) := by
  split_ifs with h <;> simp [h]

theorem medIncErrs_eq_nil (f : HousingFeatures) :
    medIncErrs f = [] ↔ 0 ≤ f.MedInc ∧ f.MedInc ≤ 15 := rangeErrs_eq_nil ..

theorem houseAgeErrs_eq_nil (f : HousingFeatures) :
    houseAgeErrs f = [] ↔ 0 ≤ f.HouseAge ∧ f.HouseAge ≤ 100 := rangeErrs_eq_nil ..

theorem aveRoomsErrs_eq_nil (f : HousingFeatures) :
    aveRoomsErrs f = [] ↔ 1 ≤ f.AveRooms ∧ f.AveRooms ≤ 20 := rangeErrs_eq_nil ..

theorem aveBedrmsErrs_eq_nil (f : HousingFeatures) :
    aveBedrmsErrs f = [] ↔ 0 ≤ f.AveBedrms ∧ f.AveBedrms ≤ 5 := rangeErrs_eq_nil ..

theorem populationErrs_eq_nil (f : HousingFeatures) :
    populationErrs f = [] ↔ 0 ≤ f.Population ∧ f.Population ≤ 50000 := rangeErrs_eq_nil ..

theorem latitudeErrs_eq_nil (f : HousingFeatures) :
    latitudeErrs f = [] ↔ 32 ≤ f.Latitude ∧ f.Latitude ≤ 42 := rangeErrs_eq_nil ..

theorem longitudeErrs_eq_nil (f : HousingFeatures) :
    longitudeErrs f = [] ↔ -125 ≤ f.Longitude ∧ f.Longitude ≤ -114 := rangeErrs_eq_nil ..

theorem aveOccupErrs_eq_nil (f : HousingFeatures) :
    aveOccupErrs f = [] ↔ 1 / 2 ≤ f.AveOccup ∧ f.AveOccup ≤ 20 := by
  unfold aveOccupErrs
  split_ifs with h1 h2
  · simp only [List.cons_ne_nil, false_iff, not_and_or, not_le]
    exact h1
  · push_neg at h1
    exact absurd h1.1 (by linarith)
  · push_neg at h1
    simpa using h1

theorem mem_medIncErrs (f : HousingFeatures) (w : Violation) :
    w ∈ medIncErrs f ↔ ((f.MedInc < 0 ∨ 15 < f.MedInc) ∧ w = .medIncRange) :=
  mem_rangeErrs ..

theorem mem_houseAgeErrs (f : HousingFeatures) (w : Violation) :
    w ∈ houseAgeErrs f ↔ ((f.HouseAge < 0 ∨ 100 < f.HouseAge) ∧ w = .houseAgeRange) :=
  mem_rangeErrs ..

theorem mem_aveRoomsErrs (f : HousingFeatures) (w : Violation) :
    w ∈ aveRoomsErrs f ↔ ((f.AveRooms < 1 ∨ 20 < f.AveRooms) ∧ w = .aveRoomsRange) :=
  mem_rangeErrs ..

theorem mem_aveBedrmsErrs (f : HousingFeatures) (w : Violation) :
    w ∈ aveBedrmsErrs f ↔ ((f.AveBedrms < 0 ∨ 5 < f.AveBedrms) ∧ w = .aveBedrmsRange) :=
  mem_rangeErrs ..

theorem mem_populationErrs (f : HousingFeatures) (w : Violation) :
    w ∈ populationErrs f ↔ ((f.Population < 0 ∨ 50000 < f.Population) ∧ w = .populationRange) :=
  mem_rangeErrs ..

theorem mem_latitudeErrs (f : HousingFeatures) (w : Violation) :
    w ∈ latitudeErrs f ↔ ((f.Latitude < 32 ∨ 42 < f.Latitude) ∧ w = .latitudeRange) :=
  mem_rangeErrs ..

theorem mem_longitudeErrs (f : HousingFeatures) (w : Violation) :
    w ∈ longitudeErrs f ↔ ((f.Longitude < -125 ∨ -114 < f.Longitude) ∧ w = .longitudeRange) :=
  mem_rangeErrs ..

theorem mem_aveOccupErrs (f : HousingFeatures) (w : Violation) :
    w ∈ aveOccupErrs f ↔
      ((f.AveOccup < 1 / 2 ∨ 20 < f.AveOccup) ∧ w = .aveOccupRange) ∨
        (¬(f.AveOccup < 1 / 2 ∨ 20 < f.AveOccup) ∧ f.AveOccup ≤ 0 ∧
          w = .aveOccupPositive) := by
  unfold aveOccupErrs
  split_ifs with h1 h2
  · simp only [List.mem_singleton]
    constructor
    · intro hw; exact Or.inl ⟨h1, hw⟩
    · rintro (⟨_, hw⟩ | ⟨hn, _, _⟩)
      · exact hw
      · exact absurd h1 hn
  · simp only [List.mem_singleton]
    constructor
    · intro hw; exact Or.inr ⟨h1, h2, hw⟩
    · rintro (⟨hc, _⟩ | ⟨_, _, hw⟩)
      · exact absurd hc h1
      · exact hw
  · simp only [List.not_mem_nil, false_iff]
    rintro (⟨hc, _⟩ | ⟨_, hc, _⟩)
    · exact h1 hc
    · exact h2 hc

/-! ## Claim theorems -/

/-- C1: a `/predict` request is accepted (the pydantic violation list is
empty) if and only if each of the 8 raw fields lies within its inclusive
declared range and `AveOccup` is strictly positive; moreover each
range violation of each field is reported in the rejection exactly when that
field is out of range (so all violations are reported, not only the
first), and any `AveOccup ≤ 0` input is reported as an `AveOccup`
violation. -/
theorem C1_validation_characterisation (f : HousingFeatures) :
    (validate f = [] ↔
      ((0 ≤ f.MedInc ∧ f.MedInc ≤ 15) ∧ (0 ≤ f.HouseAge ∧ f.HouseAge ≤ 100) ∧
        (1 ≤ f.AveRooms ∧ f.AveRooms ≤ 20) ∧ (0 ≤ f.AveBedrms ∧ f.AveBedrms ≤ 5) ∧
        (0 ≤ f.Population ∧ f.Population ≤ 50000) ∧
        (1 / 2 ≤ f.AveOccup ∧ f.AveOccup ≤ 20) ∧
        (32 ≤ f.Latitude ∧ f.Latitude ≤ 42) ∧
        (-125 ≤ f.Longitude ∧ f.Longitude ≤ -114) ∧ 0 < f.AveOccup)) ∧
    ((f.MedInc < 0 ∨ 15 < f.MedInc) ↔ Violation.medIncRange ∈ validate f) ∧
    ((f.HouseAge < 0 ∨ 100 < f.HouseAge) ↔ Violation.houseAgeRange ∈ validate f) ∧
    ((f.AveRooms < 1 ∨ 20 < f.AveRooms) ↔ Violation.aveRoomsRange ∈ validate f) ∧
    ((f.AveBedrms < 0 ∨ 5 < f.AveBedrms) ↔ Violation.aveBedrmsRange ∈ validate f) ∧
    ((f.Population < 0 ∨ 50000 < f.Population) ↔ Violation.populationRange ∈ validate f) ∧
    ((f.AveOccup < 1 / 2 ∨ 20 < f.AveOccup) ↔ Violation.aveOccupRange ∈ validate f) ∧
    ((f.Latitude < 32 ∨ 42 < f.Latitude) ↔ Violation.latitudeRange ∈ validate f) ∧
    ((f.Longitude < -125 ∨ -114 < f.Longitude) ↔ Violation.longitudeRange ∈ validate f) ∧
    (f.AveOccup ≤ 0 → Violation.aveOccupRange ∈ validate f) := by
  refine ⟨?_, ?_, ?_, ?_, ?_, ?_, ?_, ?_, ?_, ?_⟩
  · rw [validate]
    simp only [List.append_eq_nil, medIncErrs_eq_nil, houseAgeErrs_eq_nil, aveRoomsErrs_eq_nil,
      aveBedrmsErrs_eq_nil, populationErrs_eq_nil, aveOccupErrs_eq_nil, latitudeErrs_eq_nil,
      longitudeErrs_eq_nil, and_assoc]
    constructor
    · intro h
      obtain ⟨h1, h2, h3, h4, h5, h6, h7, h8, h9, h10, h11, h12, h13, h14, h15, h16⟩ := h
      exact ⟨h1, h2, h3, h4, h5, h6, h7, h8, h9, h10, h11, h12, h13, h14, h15, h16, by linarith⟩
    · intro h
      obtain ⟨h1, h2, h3, h4, h5, h6, h7, h8, h9, h10, h11, h12, h13, h14, h15, h16, -⟩ := h
      exact ⟨h1, h2, h3, h4, h5, h6, h7, h8, h9, h10, h11, h12, h13, h14, h15, h16⟩
  all_goals rw [validate]
  · simp [List.mem_append, mem_medIncErrs, mem_houseAgeErrs, mem_aveRoomsErrs,
      mem_aveBedrmsErrs, mem_populationErrs, mem_aveOccupErrs, mem_latitudeErrs,
      mem_longitudeErrs]
  · simp [List.mem_append, mem_medIncErrs, mem_houseAgeErrs, mem_aveRoomsErrs,
      mem_aveBedrmsErrs, mem_populationErrs, mem_aveOccupErrs, mem_latitudeErrs,
      mem_longitudeErrs]
  · simp [List.mem_append, mem_medIncErrs, mem_houseAgeErrs, mem_aveRoomsErrs,
      mem_aveBedrmsErrs, mem_populationErrs, mem_aveOccupErrs, mem_latitudeErrs,
      mem_longitudeErrs]
  · simp [List.mem_append, mem_medIncErrs, mem_houseAgeErrs, mem_aveRoomsErrs,
      mem_aveBedrmsErrs, mem_populationErrs, mem_aveOccupErrs, mem_latitudeErrs,
      mem_longitudeErrs]
  · simp [List.mem_append, mem_medIncErrs, mem_houseAgeErrs, mem_aveRoomsErrs,
      mem_aveBedrmsErrs, mem_populationErrs, mem_aveOccupErrs, mem_latitudeErrs,
      mem_longitudeErrs]
  · simp [List.mem_append, mem_medIncErrs, mem_houseAgeErrs, mem_aveRoomsErrs,
      mem_aveBedrmsErrs, mem_populationErrs, mem_aveOccupErrs, mem_latitudeErrs,
      mem_longitudeErrs]
  · simp [List.mem_append, mem_medIncErrs, mem_houseAgeErrs, mem_aveRoomsErrs,
      mem_aveBedrmsErrs, mem_populationErrs, mem_aveOccupErrs, mem_latitudeErrs,
      mem_longitudeErrs]
  · simp [List.mem_append, mem_medIncErrs, mem_houseAgeErrs, mem_aveRoomsErrs,
      mem_aveBedrmsErrs, mem_populationErrs, mem_aveOccupErrs, mem_latitudeErrs,
      mem_longitudeErrs]
  · intro h
    have hc : f.AveOccup < 1 / 2 ∨ 20 < f.AveOccup := Or.inl (by linarith)
    simp only [List.mem_append, mem_aveOccupErrs]
    exact Or.inl (Or.inl (Or.inr (Or.inl ⟨hc, trivial⟩)))

/-- C1 witness: the canonical in-range input is accepted, and an input
with `MedInc = -1` is rejected with a reported `MedInc` violation. -/
theorem C1_witness :
    validate canonicalInput = [] ∧
      Violation.medIncRange ∈ validate { canonicalInput with MedInc := -1 } := by
  constructor
  · exact (C1_validation_characterisation canonicalInput).1.mpr
      (by norm_num [canonicalInput])
  · exact (C1_validation_characterisation _).2.1.mp (Or.inl (by norm_num [canonicalInput]))

/-- C2 counterexample: in an environment where the registry load fails,
no local model file exists and no scaler file exists — so no model can
be resolved by any path — `load_model` nevertheless returns
successfully with no model (the process starts), refuting "fails
fatally if and only if no model can be resolved". -/
theorem C2_counterexample :
    load_model ⟨none, fun _ => false, fun _ => none, false, none⟩ =
        Except.ok (none, none) ∧
      firstExistingModel ⟨none, fun _ => false, fun _ => none, false, none⟩ = none :=
  ⟨rfl, rfl⟩

/-- C2 (amended): the registry model is preferred; on registry failure
the store falls back to the first existing local file in the fixed
order gradient boosting, random forest, linear regression; if no model
file exists either, initialization still completes (with no model
loaded, so the process starts and requests fail per-request); a fatal
startup failure occurs only when the load of the first existing local
model file raises (here: under a scaler that does not raise). -/
theorem C2_model_resolution (env : LoadEnv)
    (hsc : env.scalerFileExists = true → ∃ s, env.scalerLoad = some s) :
    (∀ m, env.mlflowLoad = some m → load_model env = .ok (some m, loadedScaler env)) ∧
    (∀ n m, env.mlflowLoad = none → firstExistingModel env = some n →
      env.localLoad n = some m → load_model env = .ok (some m, loadedScaler env)) ∧
    (env.mlflowLoad = none → firstExistingModel env = none →
      load_model env = .ok (none, loadedScaler env)) ∧
    (∀ e, load_model env = .error e →
      env.mlflowLoad = none ∧
        ∃ n, firstExistingModel env = some n ∧ env.localLoad n = none) := by
  refine ⟨?_, ?_, ?_, ?_⟩
  · intro m hm
    by_cases hb : env.scalerFileExists
    · obtain ⟨s, hs⟩ := hsc hb
      simp [load_model, hm, hb, hs, loadedScaler, pure, Except.pure, Bind.bind, Except.bind]
    · simp [load_model, hm, hb, loadedScaler, pure, Except.pure, Bind.bind, Except.bind]
  · intro n m hm hfe hll
    by_cases hb : env.scalerFileExists
    · obtain ⟨s, hs⟩ := hsc hb
      simp [load_model, hm, hfe, hll, hb, hs, loadedScaler, pure, Except.pure, Bind.bind,
        Except.bind]
    · simp [load_model, hm, hfe, hll, hb, loadedScaler, pure, Except.pure, Bind.bind,
        Except.bind]
  · intro hm hfe
    by_cases hb : env.scalerFileExists
    · obtain ⟨s, hs⟩ := hsc hb
      simp [load_model, hm, hfe, hb, hs, loadedScaler, pure, Except.pure, Bind.bind, Except.bind]
    · simp [load_model, hm, hfe, hb, loadedScaler, pure, Except.pure, Bind.bind, Except.bind]
  · intro e he
    rcases hm : env.mlflowLoad with _ | m
    · rcases hfe : firstExistingModel env with _ | n
      · by_cases hb : env.scalerFileExists
        · obtain ⟨s, hs⟩ := hsc hb
          simp [load_model, hm, hfe, hb, hs, pure, Except.pure, Bind.bind, Except.bind] at he
        · simp [load_model, hm, hfe, hb, pure, Except.pure, Bind.bind, Except.bind] at he
      · rcases hll : env.localLoad n with _ | m2
        · exact ⟨rfl, n, rfl, hll⟩
        · by_cases hb : env.scalerFileExists
          · obtain ⟨s, hs⟩ := hsc hb
            simp [load_model, hm, hfe, hll, hb, hs, pure, Except.pure, Bind.bind,
              Except.bind] at he
          · simp [load_model, hm, hfe, hll, hb, pure, Except.pure, Bind.bind,
              Except.bind] at he
    · by_cases hb : env.scalerFileExists
      · obtain ⟨s, hs⟩ := hsc hb
        simp [load_model, hm, hb, hs, pure, Except.pure, Bind.bind, Except.bind] at he
      · simp [load_model, hm, hb, pure, Except.pure, Bind.bind, Except.bind] at he

/-- C2 witness: with the registry failing, `gradient_boosting.joblib`
absent and `random_forest.joblib` present and loadable, the store
resolves the random-forest artifact. -/
theorem C2_witness :
    load_model
        ⟨none, fun n => n == ModelName.random_forest,
          fun n => if n == ModelName.random_forest then some (constModel 2) else none,
          false, none⟩ =
      Except.ok (some (constModel 2), none) := by
  have h := C2_model_resolution
      ⟨none, fun n => n == ModelName.random_forest,
        fun n => if n == ModelName.random_forest then some (constModel 2) else none,
        false, none⟩ (fun hb => absurd hb (by decide))
  exact h.2.1 ModelName.random_forest (constModel 2) rfl rfl rfl

/-- C3 counterexample: with a model whose raw prediction is `1.1706`,
the response carries `prediction = 1.17` but
`confidence_interval.lower = round(1.1706*0.85, 2) = 1.00`, while the
claim demands `round(1.17*0.85, 2) = 0.99` — the interval is derived
from the raw prediction, not from the rounded value in the response. -/
theorem C3_counterexample :
    (predict_price ⟨some (constModel (11706 / 10000)), none, "v", "t", true, true⟩ ⟨[], 0⟩
        canonicalInput).1 =
      .success ⟨117 / 100, "v", "t", 1, 27 / 20⟩ ∧
    round2 ((117 / 100 : ℚ) * 0.85) = 99 / 100 ∧ (1 : ℚ) ≠ 99 / 100 := by
  refine ⟨?_, by norm_num [round2, roundHalfEven], by norm_num⟩
  norm_num [predict_price, servicePredict, constModel, log_prediction, validate, canonicalInput,
    medIncErrs, houseAgeErrs, aveRoomsErrs, aveBedrmsErrs, populationErrs, aveOccupErrs,
    latitudeErrs, longitudeErrs, round2, roundHalfEven]

/-- C3 (amended): for every successful `/predict` response,
`confidence_interval.lower == round(p*0.85, 2)` and
`upper == round(p*1.15, 2)` where `p` is the raw (unrounded) model
prediction; the `prediction` field of the response is `round(p, 2)`, which
the interval bounds are not recomputed from. -/
theorem C3_confidence_interval (s : Service) (st : ServiceState) (f : HousingFeatures)
    (p : ℚ) (hv : validate f = []) (hp : (servicePredict s st f).1 = .ok p) :
    (predict_price s st f).1 =
      .success ⟨round2 p, s.modelVersion, s.now, round2 (p * 0.85), round2 (p * 1.15)⟩ := by
  rcases hEq : servicePredict s st f with ⟨res, st2⟩
  rw [hEq] at hp
  have hres : res = .ok p := hp
  subst hres
  simp [predict_price, hv, hEq]

/-- C3 witness: a concrete service whose model predicts `2` produces the
success response with both interval bounds rounded from the raw `2`. -/
theorem C3_witness :
    (predict_price ⟨some (constModel 2), none, "v", "t", true, true⟩ ⟨[], 0⟩
        canonicalInput).1 =
      .success ⟨round2 2, "v", "t", round2 (2 * 0.85), round2 (2 * 1.15)⟩ :=
  C3_confidence_interval _ _ _ 2
    (by norm_num [validate, canonicalInput, medIncErrs, houseAgeErrs, aveRoomsErrs,
      aveBedrmsErrs, populationErrs, aveOccupErrs, latitudeErrs, longitudeErrs]) rfl

/-- C4 counterexample: with a model whose raw prediction is `1.234`,
the logged row stores `1.234` while the response body carries the
rounded `1.23`, so the stored prediction does not match the response
value (one row is appended, but with the raw value). -/
theorem C4_counterexample :
    (predict_price ⟨some (constModel (1234 / 1000)), none, "v", "t", true, true⟩ ⟨[], 0⟩
        canonicalInput).2.log =
      [⟨"t", canonicalInput, 1234 / 1000, "v"⟩] ∧
    (predict_price ⟨some (constModel (1234 / 1000)), none, "v", "t", true, true⟩ ⟨[], 0⟩
        canonicalInput).1 =
      .success ⟨123 / 100, "v", "t", 21 / 20, 71 / 50⟩ ∧
    (1234 / 1000 : ℚ) ≠ 123 / 100 := by
  refine ⟨?_, ?_, by norm_num⟩ <;>
    norm_num [predict_price, servicePredict, constModel, log_prediction, validate,
      canonicalInput, medIncErrs, houseAgeErrs, aveRoomsErrs, aveBedrmsErrs, populationErrs,
      aveOccupErrs, latitudeErrs, longitudeErrs, round2, roundHalfEven]

/-- C4 (amended): every successful `/predict` call whose log append
succeeds appends exactly one new row to the prediction log; the row
stores the raw (unrounded) model prediction `p`, and the response body
carries the same prediction rounded to 2 decimals — they agree up to
rounding, not exactly. -/
theorem C4_prediction_logging (s : Service) (st : ServiceState) (f : HousingFeatures)
    (m : Model) (p : ℚ) (hv : validate f = []) (hl : s.logWritable = true)
    (hm : s.model = some m) (hp : m.predictFn (preprocess_input s.scaler f) = some p) :
    (predict_price s st f).1 =
        .success ⟨round2 p, s.modelVersion, s.now, round2 (p * 0.85), round2 (p * 1.15)⟩ ∧
      (predict_price s st f).2.log = st.log ++ [⟨s.now, f, p, s.modelVersion⟩] := by
  by_cases hme : s.metricsEnabled <;>
    simp [predict_price, servicePredict, hv, hm, hp, log_prediction, hl, hme]

/-- C4 witness: a concrete successful call appends exactly one row with
the raw prediction `3`, the response carrying `round2 3`. -/
theorem C4_witness :
    (predict_price ⟨some (constModel 3), none, "v", "t", true, true⟩ ⟨[], 0⟩
          canonicalInput).1 =
        .success ⟨round2 3, "v", "t", round2 (3 * 0.85), round2 (3 * 1.15)⟩ ∧
      (predict_price ⟨some (constModel 3), none, "v", "t", true, true⟩ ⟨[], 0⟩
          canonicalInput).2.log =
        ([] : List LogRow) ++ [⟨"t", canonicalInput, 3, "v"⟩] :=
  C4_prediction_logging _ _ _ (constModel 3) 3
    (by norm_num [validate, canonicalInput, medIncErrs, houseAgeErrs, aveRoomsErrs,
      aveBedrmsErrs, populationErrs, aveOccupErrs, latitudeErrs, longitudeErrs]) rfl rfl rfl

/-- C5: if the log append fails (`logWritable = false`), the `/predict`
request still succeeds with the computed prediction, the log is left
unchanged, and the HTTP outcome is identical to what it would have been
with a writable log — a logging fault is never surfaced as a request
error. -/
theorem C5_logging_failure_swallowed (s : Service) (st : ServiceState) (f : HousingFeatures)
    (m : Model) (p : ℚ) (hv : validate f = []) (hl : s.logWritable = false)
    (hm : s.model = some m) (hp : m.predictFn (preprocess_input s.scaler f) = some p) :
    (predict_price s st f).1 =
        .success ⟨round2 p, s.modelVersion, s.now, round2 (p * 0.85), round2 (p * 1.15)⟩ ∧
      (predict_price s st f).2.log = st.log ∧
      (predict_price s st f).1 =
        (predict_price { s with logWritable := true } st f).1 := by
  by_cases hme : s.metricsEnabled <;>
    simp [predict_price, servicePredict, hv, hm, hp, log_prediction, hl, hme]

/-- C5 witness: with an unwritable log store, a concrete `/predict`
call still returns the success response and appends nothing. -/
theorem C5_witness :
    (predict_price ⟨some (constModel 2), none, "v", "t", false, true⟩ ⟨[], 0⟩
          canonicalInput).1 =
        .success ⟨round2 2, "v", "t", round2 (2 * 0.85), round2 (2 * 1.15)⟩ ∧
      (predict_price ⟨some (constModel 2), none, "v", "t", false, true⟩ ⟨[], 0⟩
          canonicalInput).2.log = ([] : List LogRow) ∧
      (predict_price ⟨some (constModel 2), none, "v", "t", false, true⟩ ⟨[], 0⟩
          canonicalInput).1 =
        (predict_price ⟨some (constModel 2), none, "v", "t", true, true⟩ ⟨[], 0⟩
          canonicalInput).1 :=
  C5_logging_failure_swallowed _ _ _ (constModel 2) 2
    (by norm_num [validate, canonicalInput, medIncErrs, houseAgeErrs, aveRoomsErrs,
      aveBedrmsErrs, populationErrs, aveOccupErrs, latitudeErrs, longitudeErrs]) rfl rfl rfl

/-- C6: when request validation fails, `/predict` terminates in the
`InvalidInput` outcome carrying the violation list, and the service
state — prediction log and counter alike — is unchanged: no pipeline
step runs and nothing is logged. -/
theorem C6_invalid_input_terminal (s : Service) (st : ServiceState) (f : HousingFeatures)
    (hv : validate f ≠ []) :
    (predict_price s st f).1 = .invalidInput (validate f) ∧
      (predict_price s st f).2 = st := by
  simp [predict_price, hv]

/-- C6 witness: a request with `MedInc = -1` is rejected as
`InvalidInput` and the state is untouched. -/
theorem C6_witness :
    (predict_price ⟨some (constModel 2), none, "v", "t", true, true⟩ ⟨[], 0⟩
          { canonicalInput with MedInc := -1 }).1 =
        .invalidInput (validate { canonicalInput with MedInc := -1 }) ∧
      (predict_price ⟨some (constModel 2), none, "v", "t", true, true⟩ ⟨[], 0⟩
          { canonicalInput with MedInc := -1 }).2 = (⟨[], 0⟩ : ServiceState) :=
  C6_invalid_input_terminal _ _ _
    (by norm_num [validate, canonicalInput, medIncErrs, houseAgeErrs, aveRoomsErrs,
      aveBedrmsErrs, populationErrs, aveOccupErrs, latitudeErrs, longitudeErrs])

/-- C7 counterexample: when the synthetic prediction fails (no model
loaded), the `/health` response is the unhealthy body without the
`model_loaded` and `scaler_loaded` fields, refuting "the response
contains the fields status, model_loaded, scaler_loaded, and
timestamp" as a statement about every `/health` response. -/
theorem C7_counterexample :
    health_check ⟨none, none, "v", "t", true, true⟩ ⟨[], 0⟩ =
      (⟨"unhealthy", none, none, some .modelUnavailable, "t"⟩, ⟨[], 0⟩) := rfl

/-- C7 (amended): `/health` reports `healthy` exactly when one
synthetic prediction with the canonical input completes without error
through the same `servicePredict` pipeline as real requests; the
healthy response contains `status`, `model_loaded`, `scaler_loaded` and
`timestamp`, while an unhealthy response contains `status`, `error` and
`timestamp` and omits `model_loaded`/`scaler_loaded`. -/
theorem C7_health_contract (s : Service) (st : ServiceState) :
    ((health_check s st).1.status = "healthy" ↔
      ∃ p, (servicePredict s st canonicalInput).1 = .ok p) ∧
    ((health_check s st).1.status = "healthy" →
      (health_check s st).1 =
        ⟨"healthy", some s.model.isSome, some s.scaler.isSome, none, s.now⟩) ∧
    ((health_check s st).1.status ≠ "healthy" →
      ∃ e, (health_check s st).1 = ⟨"unhealthy", none, none, some e, s.now⟩) := by
  rcases hEq : servicePredict s st canonicalInput with ⟨res, st2⟩
  cases res with
  | ok p => refine ⟨?_, ?_, ?_⟩ <;> simp [health_check, hEq]
  | error e => refine ⟨?_, ?_, ?_⟩ <;> simp [health_check, hEq]

/-- C7 witness: a service with a working model and no scaler reports
healthy with `model_loaded = true` and `scaler_loaded = false`. -/
theorem C7_witness :
    (health_check ⟨some (constModel 2), none, "v", "t", true, true⟩ ⟨[], 0⟩).1 =
      ⟨"healthy", some true, some false, none, "t"⟩ := by
  have h := C7_health_contract ⟨some (constModel 2), none, "v", "t", true, true⟩ ⟨[], 0⟩
  exact h.2.1 rfl

/-- Bounds extracted from a passed validation: the two engineered-ratio
denominators are bounded away from zero. -/
theorem validate_eq_nil_bounds (f : HousingFeatures) (hv : validate f = []) :
    1 ≤ f.AveRooms ∧ 1 / 2 ≤ f.AveOccup := by
  rw [validate] at hv
  simp only [List.append_eq_nil, medIncErrs_eq_nil, houseAgeErrs_eq_nil, aveRoomsErrs_eq_nil,
    aveBedrmsErrs_eq_nil, populationErrs_eq_nil, aveOccupErrs_eq_nil, latitudeErrs_eq_nil,
    longitudeErrs_eq_nil, and_assoc] at hv
  obtain ⟨h1, h2, h3, h4, h5, h6, h7, h8, h9, h10, h11, h12, h13, h14, h15, h16⟩ := hv
  exact ⟨h5, h11⟩

/-- C8: for every input that passed validation, feature engineering is
total: both ratio denominators are nonzero and the engineered row is
exactly the 8 raw values plus the three ratios, every entry defined (no
`inf`/`nan` reaches the model). -/
theorem C8_feature_engineering_total (f : HousingFeatures) (hv : validate f = []) :
    f.AveOccup ≠ 0 ∧ f.AveRooms ≠ 0 ∧
      engineeredRow f =
        [some f.MedInc, some f.HouseAge, some f.AveRooms, some f.AveBedrms,
          some f.Population, some f.AveOccup, some f.Latitude, some f.Longitude,
          some (f.AveRooms / f.AveOccup), some (f.AveBedrms / f.AveRooms),
          some (f.Population / f.AveOccup)] := by
  obtain ⟨hr, ho⟩ := validate_eq_nil_bounds f hv
  have ho0 : f.AveOccup ≠ 0 := by intro h; rw [h] at ho; norm_num at ho
  have hr0 : f.AveRooms ≠ 0 := by intro h; rw [h] at hr; norm_num at hr
  refine ⟨ho0, hr0, ?_⟩
  simp [engineeredRow, rawVec, ratioDiv, ho0, hr0]

/-- C8 witness: the canonical input passes validation and its
engineered row is fully defined. -/
theorem C8_witness :
    canonicalInput.AveOccup ≠ 0 ∧ canonicalInput.AveRooms ≠ 0 ∧
      engineeredRow canonicalInput =
        [some canonicalInput.MedInc, some canonicalInput.HouseAge,
          some canonicalInput.AveRooms, some canonicalInput.AveBedrms,
          some canonicalInput.Population, some canonicalInput.AveOccup,
          some canonicalInput.Latitude, some canonicalInput.Longitude,
          some (canonicalInput.AveRooms / canonicalInput.AveOccup),
          some (canonicalInput.AveBedrms / canonicalInput.AveRooms),
          some (canonicalInput.Population / canonicalInput.AveOccup)] :=
  C8_feature_engineering_total canonicalInput
    (by norm_num [validate, canonicalInput, medIncErrs, houseAgeErrs, aveRoomsErrs,
      aveBedrmsErrs, populationErrs, aveOccupErrs, latitudeErrs, longitudeErrs])

/-- C9: `GET /model/info` returns the fixed constant
`performance_metrics = (rmse 0.52, r2_score 0.82)` for every service
state, independent of which model artifact was loaded. -/
theorem C9_model_info_constant_metrics (s : Service) :
    (get_model_info s).rmse = 0.52 ∧ (get_model_info s).r2_score = 0.82 :=
  ⟨rfl, rfl⟩

/-- C10: a `/health` call whose synthetic prediction succeeds has
exactly the side effects of a real `/predict` with the canonical input:
the resulting state is identical to the one `predict_price` produces,
one row with the canonical input is appended to the log, and the
`predictions_total` counter is incremented. -/
theorem C10_health_side_effects (s : Service) (st : ServiceState) (m : Model) (p : ℚ)
    (hm : s.model = some m)
    (hp : m.predictFn (preprocess_input s.scaler canonicalInput) = some p)
    (hl : s.logWritable = true) (hme : s.metricsEnabled = true) :
    (health_check s st).2 = (predict_price s st canonicalInput).2 ∧
      (health_check s st).2.log = st.log ++ [⟨s.now, canonicalInput, p, s.modelVersion⟩] ∧
      (health_check s st).2.counter = st.counter + 1 := by
  have hv : validate canonicalInput = [] := by
    norm_num [validate, canonicalInput, medIncErrs, houseAgeErrs, aveRoomsErrs,
      aveBedrmsErrs, populationErrs, aveOccupErrs, latitudeErrs, longitudeErrs]
  simp [health_check, predict_price, servicePredict, hv, hm, hp, log_prediction, hl, hme]

/-- C10 witness: a concrete healthy `/health` call appends one row with
the canonical input and bumps the counter, matching the state of the
corresponding `/predict`. -/
theorem C10_witness :
    (health_check ⟨some (constModel 2), none, "v", "t", true, true⟩ ⟨[], 0⟩).2 =
        (predict_price ⟨some (constModel 2), none, "v", "t", true, true⟩ ⟨[], 0⟩
          canonicalInput).2 ∧
      (health_check ⟨some (constModel 2), none, "v", "t", true, true⟩ ⟨[], 0⟩).2.log =
        ([] : List LogRow) ++ [⟨"t", canonicalInput, 2, "v"⟩] ∧
      (health_check ⟨some (constModel 2), none, "v", "t", true, true⟩ ⟨[], 0⟩).2.counter =
        0 + 1 :=
  C10_health_side_effects _ _ (constModel 2) 2 rfl rfl rfl rfl

end CaliforniaHousing
